import Mathlib

/-!
Verification of the data-model-ide-next repository core:
the schema-introspection import pipeline (app/api/storage-models/import/route.ts),
the relational serializer (lib/serializers.ts), and the create routes for
view, form, operation and domain models.

JavaScript runtime values that flow through the untyped parts of the code
(schema documents, layout documents, JSON responses) are embedded as `JsValue`.
Objects are association lists in property-insertion order; a property that is
absent models JavaScript `undefined` (`JSON.stringify` drops such properties,
so the serialized response never carries them).
-/

namespace DataModelIde

/-- A JavaScript/JSON runtime value.  `obj` keeps properties in insertion
order; property access returns `Option JsValue` where `none` models
`undefined`. -/
inductive JsValue where
  | null : JsValue
  | bool (b : Bool) : JsValue
  | str (s : String) : JsValue
  | num (n : Int) : JsValue
  | arr (xs : List JsValue) : JsValue
  | obj (kvs : List (String × JsValue)) : JsValue

/-- First-match association-list lookup, the semantics of reading a property
from a JavaScript object literal built in insertion order. -/
def assocGet {α : Type} : List (String × α) → String → Option α
  | [], _ => none
  | (k0, v) :: rest, k => if k0 = k then some v else assocGet rest k

/-- Property read: `v.get k` is JavaScript `v[k]`, `none` meaning `undefined`.
Only objects carry string-keyed properties here (the code under verification
never reads a named property off an array, a string or a number). -/
def JsValue.get : JsValue → String → Option JsValue
  | .obj kvs, k => assocGet kvs k
  | _, _ => none

/-- JavaScript truthiness of an embedded value. -/
def JsValue.truthy : JsValue → Bool
  | .null => false
  | .bool b => b
  | .str s => decide (s ≠ "")
  | .num n => decide (n ≠ 0)
  | .arr _ => true
  | .obj _ => true

/-- Whether `typeof v === "object"` holds in JavaScript (true for `null`,
arrays and plain objects). -/
def JsValue.isObjectType : JsValue → Bool
  | .null => true
  | .arr _ => true
  | .obj _ => true
  | _ => false

/-- A normalized domain field as produced by `toDomainFields` in
lib/serializers.ts.  `description` distinguishes a string, an explicit
`null` (`some none`) and `undefined` (`none`). -/
structure DomainField where
  key : String
  name : String
  type : Option String
  required : Option Bool
  description : Option (Option String)
deriving Repr, DecidableEq

/-- The source's two-level ternary `typeof r.p === "string" ? r.p :
typeof r.f === "string" ? r.f : ""` used for the key/column and name/label
resolution in `toDomainFields`. -/
def jsStringOrEmpty (r : JsValue) (primary fallback : String) : String :=
  match r.get primary with
  | some (.str s) => s
  | _ =>
    match r.get fallback with
    | some (.str s) => s
    | _ => ""

/-- Per-item body of `toDomainFields` (lib/serializers.ts): the mapped
function over `fields`, returning `none` where the source returns `null`.
Mirrors the source's typeof-dispatched conditionals. -/
def toDomainFieldItem (item : JsValue) : Option DomainField :=
  match item with
  | .obj _ | .arr _ =>
    let key : String := jsStringOrEmpty item "key" "column"
    let name : String := jsStringOrEmpty item "name" "label"
    if key = "" ∨ name = "" then none
    else
      let type : Option String :=
        match item.get "type" with
        | some (.str s) => some s
        | _ =>
          match item.get "dataType" with
          | some (.str s) => some s
          | _ => none
      let required : Option Bool :=
        match item.get "required" with
        | some (.bool b) => some b
        | _ => none
      let description : Option (Option String) :=
        match item.get "description" with
        | some (.str s) => some (some s)
        | some .null => some none
        | _ => none
      some { key := key, name := name, type := type,
             required := required, description := description }
  | _ => none

/-- `toDomainFields` from lib/serializers.ts: tolerant extraction of a domain
field list from a free-form schema document. -/
def toDomainFields (schema : JsValue) : List DomainField :=
  if schema.truthy && schema.isObjectType then
    match schema.get "fields" with
    | some (.arr fields) => fields.filterMap toDomainFieldItem
    | _ => []
  else []

/-- JSON rendering of a normalized `DomainField`, as it appears in the
serialized response (`JSON.stringify` drops `undefined`-valued properties and
keeps explicit `null`). -/
def encodeDomainField (f : DomainField) : JsValue :=
  .obj ([("key", .str f.key), ("name", .str f.name)]
    ++ (match f.type with
        | some t => [("type", .str t)]
        | none => [])
    ++ (match f.required with
        | some b => [("required", .bool b)]
        | none => [])
    ++ (match f.description with
        | some (some d) => [("description", .str d)]
        | some none => [("description", .null)]
        | none => []))

/-- Modelled from the spec: the field-extraction wording of section 4.2,
stated independently of the source, for comparison with `toDomainFields`.
Resolution of a string property with a legacy fallback name; a non-string
value (or a non-object entry) resolves to nothing. -/
def specResolvedString (r : JsValue) (primary fallback : String) : Option String :=
  match r.get primary with
  | some (.str s) => some s
  | _ =>
    match r.get fallback with
    | some (.str s) => some s
    | _ => none

/-- Modelled from the spec: one field entry per section 4.2 — accept
`key`/`column` as identifier and `name`/`label` as display name, drop the
entry when either is missing or empty, pass `type`/`dataType`, `required`
and `description` through. -/
def specField (item : JsValue) : Option DomainField :=
  match specResolvedString item "key" "column", specResolvedString item "name" "label" with
  | some k, some n =>
    if k = "" ∨ n = "" then none
    else
      some { key := k, name := n,
             type := specResolvedString item "type" "dataType",
             required :=
               match item.get "required" with
               | some (.bool b) => some b
               | _ => none,
             description :=
               match item.get "description" with
               | some (.str s) => some (some s)
               | some .null => some none
               | _ => none }
  | _, _ => none

/-- Modelled from the spec: the whole field-extraction algorithm of section
4.2 — tolerate an absent or non-conforming schema by yielding the empty
list, otherwise extract from the `fields` array. -/
def specDomainFields (schema : JsValue) : List DomainField :=
  match schema.get "fields" with
  | some (.arr items) => items.filterMap specField
  | _ => []

/-! ## Schema importer (app/api/storage-models/import/route.ts) -/

/-- One row of the catalog table query (`INFORMATION_SCHEMA.TABLES`):
`{tableName, tableComment}`.  `TABLE_COMMENT` is a non-null string column,
empty when no comment is set. -/
structure CatalogTableRow where
  tableName : String
  tableComment : String
deriving Repr, DecidableEq

/-- One row of the catalog column query (`INFORMATION_SCHEMA.COLUMNS`),
ordered by table name then ordinal position. -/
structure CatalogColumnRow where
  tableName : String
  columnName : String
  columnType : String
  columnKey : Option String
  isNullable : String
  columnDefault : JsValue
  columnComment : Option String

/-- The `ColumnSchema` value built per column row in the import route. -/
structure ColumnSchema where
  name : String
  type : String
  key : Option String
  nullable : Bool
  default : JsValue
  comment : Option String

/-- The per-row column construction of the import route:
`{name, type, key, nullable: isNullable === "YES", default, comment}`. -/
def toColumnSchema (c : CatalogColumnRow) : ColumnSchema :=
  { name := c.columnName
    type := c.columnType
    key := c.columnKey
    nullable := c.isNullable = "YES"
    default := c.columnDefault
    comment := c.columnComment }

/-- JavaScript `Map.set`: updating an existing key keeps its position,
a new key is appended at the end (insertion order). -/
def mapSet {α : Type} : List (String × α) → String → α → List (String × α)
  | [], k, v => [(k, v)]
  | (k0, v0) :: rest, k, v =>
    if k0 = k then (k0, v) :: rest else (k0, v0) :: mapSet rest k v

/-- The `columnsByTable` map built by the import route's grouping loop:
for every column row, append its `ColumnSchema` to the list of its owning
table (`get(...) ?? []` then `push` then `set`). -/
def buildColumnsMap (rows : List CatalogColumnRow) :
    List (String × List ColumnSchema) :=
  rows.foldl
    (fun m c =>
      mapSet m c.tableName (((assocGet m c.tableName).getD []) ++ [toColumnSchema c]))
    []

/-- The grouped column list for a table: `columnsByTable.get(name) ?? []`. -/
def groupedColumns (rows : List CatalogColumnRow) (t : String) : List ColumnSchema :=
  (assocGet (buildColumnsMap rows) t).getD []

/-- JavaScript `s || null` for a string `s`. -/
def jsStringOrNull (s : String) : Option String :=
  if s = "" then none else some s

/-- JavaScript `x || undefined` for `x : string | null | undefined`. -/
def optOrUndefined (d : Option String) : Option String :=
  match d with
  | some s => if s = "" then none else some s
  | none => none

/-- The in-memory table document built in step 6 of the importer:
`{name, description: tableComment || null, columns: grouped ?? []}`,
one per catalog table row, zero-column tables included. -/
structure ImportTable where
  name : String
  description : Option String
  columns : List ColumnSchema

/-- The `tables` array of the import route. -/
def buildTables (tableRows : List CatalogTableRow)
    (columnRows : List CatalogColumnRow) : List ImportTable :=
  tableRows.map (fun t =>
    { name := t.tableName
      description := jsStringOrNull t.tableComment
      columns := groupedColumns columnRows t.tableName })

/-- A persisted child `StorageTable` row (`tables.create` in the importer):
`{name, description: description || undefined, schema: {columns}}`. -/
structure StorageTableRecP where
  name : String
  description : Option String
  schemaColumns : List ColumnSchema

/-- The child-table create payload of the importer. -/
def persistChildTable (t : ImportTable) : StorageTableRecP :=
  { name := t.name
    description := optOrUndefined t.description
    schemaColumns := t.columns }

/-- The importer's connection parameters after zod validation and the port
transform (port already numeric and positive, password defaulted to ""). -/
structure ValidConnection where
  host : String
  port : Nat
  user : String
  password : String
  database : String

/-- JavaScript `encodeURIComponent` unreserved characters
(`A-Z a-z 0-9 - _ . ! ~ * ' ( )`). -/
def isUnreservedChar (c : Char) : Bool :=
  c.isAlphanum || c = '-' || c = '_' || c = '.' || c = '!' || c = '~' ||
    c = '*' || c = Char.ofNat 39 || c = '(' || c = ')'

/-- UTF-8 byte sequence of a character. -/
def utf8ByteList (c : Char) : List Nat :=
  let n := c.toNat
  if n < 128 then [n]
  else if n < 2048 then [192 + n / 64, 128 + n % 64]
  else if n < 65536 then [224 + n / 4096, 128 + (n / 64) % 64, 128 + n % 64]
  else [240 + n / 262144, 128 + (n / 4096) % 64, 128 + (n / 64) % 64, 128 + n % 64]

/-- Uppercase hexadecimal digit. -/
def hexUpperDigit (n : Nat) : Char :=
  if n < 10 then Char.ofNat (48 + n) else Char.ofNat (55 + n)

/-- Percent-encoding of one byte, `%XX` with uppercase hex. -/
def percentEncodeByte (b : Nat) : List Char :=
  [Char.ofNat 37, hexUpperDigit (b / 16), hexUpperDigit (b % 16)]

/-- JavaScript `encodeURIComponent`. -/
def encodeURIComponent (s : String) : String :=
  ⟨s.data.foldr
    (fun c acc =>
      (if isUnreservedChar c then [c] else (utf8ByteList c).flatMap percentEncodeByte) ++ acc)
    []⟩

/-- The persisted `connection` descriptor of the importer:
`mysql://${encodeURIComponent(user)}@${host}:${port}/${database}`. -/
def buildConnectionString (conn : ValidConnection) : String :=
  "mysql://" ++ encodeURIComponent conn.user ++ "@" ++ conn.host ++ ":" ++
    toString conn.port ++ "/" ++ conn.database

/-- A persisted `StorageModel` aggregate as created by the importer. -/
structure StorageModelRecP where
  id : String
  name : String
  description : Option String
  database : String
  connection : String
  schemaImportedAt : String
  schemaTables : List ImportTable
  tables : List StorageTableRecP

/-- Outcome of the import POST handler after the catalog queries succeed:
either the fixed 400 rejection or the created model. -/
inductive ImportResult where
  | badRequest (message : String)
  | created (model : StorageModelRecP)

/-- HTTP status of an import outcome. -/
def ImportResult.status : ImportResult → Nat
  | .badRequest _ => 400
  | .created _ => 200

/-- The import POST handler from the point where both catalog queries have
returned: the zero-table rejection, the grouping, and the single
`prisma.dataStorageModel.create`.  The second component is the list of
`StorageModel` aggregates durably written by the call. -/
def importHandler (name : String) (description : Option String)
    (conn : ValidConnection) (tableRows : List CatalogTableRow)
    (columnRows : List CatalogColumnRow) (now newId : String) :
    ImportResult × List StorageModelRecP :=
  if tableRows.length = 0 then
    (.badRequest "目标数据库未检测到数据表", [])
  else
    let tables := buildTables tableRows columnRows
    let model : StorageModelRecP :=
      { id := newId
        name := name
        description := optOrUndefined description
        database := conn.database
        connection := buildConnectionString conn
        schemaImportedAt := now
        schemaTables := tables
        tables := tables.map persistChildTable }
    (.created model, [model])

/-- JavaScript `Array.from(new Set(l))`: first-occurrence-order
deduplication. -/
def jsSetDedup (l : List String) : List String :=
  l.foldl (fun acc x => if x ∈ acc then acc else acc ++ [x]) []

/-! ## Relational serializer (lib/serializers.ts)

The serializer's output is modelled as the JSON document the route responds
with (`NextResponse.json`): object properties in insertion order, properties
holding `undefined` dropped, explicit `null` kept. -/

/-- Scalar columns of a persisted `DataOperationModel` row. -/
structure OperationBase where
  id : String
  name : String
  description : Option String
  type : String
  endpoint : Option String
  method : Option String
  storageModelId : Option String
  formModelId : Option String
  requestSchema : Option JsValue
  responseSchema : Option JsValue
  createdAt : String
  updatedAt : String

/-- Scalar columns of a persisted `DataFormModel` row. -/
structure FormBase where
  id : String
  name : String
  description : Option String
  schema : JsValue
  storageTableId : String
  createdAt : String
  updatedAt : String

/-- Scalar columns of a persisted `DataStorageTable` row. -/
structure TableBase where
  id : String
  name : String
  description : Option String
  schema : JsValue
  storageModelId : String
  createdAt : String
  updatedAt : String

/-- Scalar columns of a persisted `DataViewModel` row. -/
structure ViewBase where
  id : String
  name : String
  description : Option String
  layout : JsValue
  storageModelId : String
  storageTableId : String
  createdAt : String
  updatedAt : String

/-- An operation row as loaded for serialization; `formModel` is the
optional eagerly-loaded back-reference (`none` when the relation was not
included or is null). -/
structure OperationRec where
  base : OperationBase
  formModel : Option FormBase

/-- A form row as loaded for serialization; `operations` is `none` when the
relation was not part of the include (the property is absent on the loaded
object), `storageTable` is the optional back-reference. -/
structure FormRec where
  base : FormBase
  operations : Option (List OperationBase)
  storageTable : Option TableBase

/-- A view row as loaded for serialization. -/
structure ViewRec where
  base : ViewBase
  storageTable : Option TableBase

/-- A storage-table row as loaded inside a storage model or a domain include
(forms carry their operations, views are shallow). -/
structure TableRec where
  base : TableBase
  forms : List FormRec
  views : List ViewRec

/-- A domain-model row as loaded with the four join-table includes already
unwrapped to their target rows. -/
structure DomainRec where
  id : String
  name : String
  description : Option String
  schema : JsValue
  storageTables : List TableRec
  viewModels : List ViewRec
  formModels : List FormRec
  operationModels : List OperationRec
  createdAt : String
  updatedAt : String

/-- JSON of a nullable string column (`null` survives serialization). -/
def jsNullableStr : Option String → JsValue
  | some s => .str s
  | none => .null

/-- JSON of a nullable document column. -/
def jsNullableDoc : Option JsValue → JsValue
  | some v => v
  | none => .null

/-- A property rendered from `x ?? undefined`: dropped when absent. -/
def optionalProp (k : String) : Option String → List (String × JsValue)
  | some s => [(k, .str s)]
  | none => []

/-- The shallow form copy built inside `toOperationModel` for the
`formModel` back-reference. -/
def formBaseJson (f : FormBase) : JsValue :=
  .obj [("id", .str f.id), ("name", .str f.name),
        ("description", jsNullableStr f.description),
        ("schema", f.schema), ("storageTableId", .str f.storageTableId),
        ("createdAt", .str f.createdAt), ("updatedAt", .str f.updatedAt)]

/-- `toOperationModel` from lib/serializers.ts, rendered to JSON. -/
def toOperationModelJson (m : OperationRec) (includeForm : Bool) : JsValue :=
  .obj ([("id", .str m.base.id), ("name", .str m.base.name),
         ("description", jsNullableStr m.base.description),
         ("type", .str m.base.type),
         ("endpoint", jsNullableStr m.base.endpoint),
         ("method", jsNullableStr m.base.method)]
    ++ optionalProp "storageModelId" m.base.storageModelId
    ++ optionalProp "formModelId" m.base.formModelId
    ++ [("requestSchema", jsNullableDoc m.base.requestSchema),
        ("responseSchema", jsNullableDoc m.base.responseSchema),
        ("createdAt", .str m.base.createdAt), ("updatedAt", .str m.base.updatedAt)]
    ++ (if includeForm then
          match m.formModel with
          | some f => [("formModel", formBaseJson f)]
          | none => []
        else []))

/-- The shallow storage-table copy built inside `toFormModel` and
`toViewModel` for the `storageTable` back-reference: its `forms` and `views`
collections are rendered as empty arrays, breaking the
Table→Form→Table recursion. -/
def tableBackRefJson (t : TableBase) : JsValue :=
  .obj [("id", .str t.id), ("name", .str t.name),
        ("description", jsNullableStr t.description),
        ("schema", t.schema), ("storageModelId", .str t.storageModelId),
        ("createdAt", .str t.createdAt), ("updatedAt", .str t.updatedAt),
        ("forms", .arr []), ("views", .arr [])]

/-- `toFormModel` from lib/serializers.ts, rendered to JSON. -/
def toFormModelJson (m : FormRec) (includeOperations : Bool) : JsValue :=
  .obj ([("id", .str m.base.id), ("name", .str m.base.name),
         ("description", jsNullableStr m.base.description),
         ("schema", m.base.schema),
         ("storageTableId", .str m.base.storageTableId),
         ("createdAt", .str m.base.createdAt), ("updatedAt", .str m.base.updatedAt)]
    ++ (if includeOperations then
          match m.operations with
          | some ops =>
            [("operations",
              .arr (ops.map (fun o => toOperationModelJson ⟨o, none⟩ false)))]
          | none => []
        else [])
    ++ (match m.storageTable with
        | some t => [("storageTable", tableBackRefJson t)]
        | none => []))

/-- `toViewModel` from lib/serializers.ts, rendered to JSON. -/
def toViewModelJson (m : ViewRec) : JsValue :=
  .obj ([("id", .str m.base.id), ("name", .str m.base.name),
         ("description", jsNullableStr m.base.description),
         ("layout", m.base.layout),
         ("storageModelId", .str m.base.storageModelId),
         ("storageTableId", .str m.base.storageTableId),
         ("createdAt", .str m.base.createdAt), ("updatedAt", .str m.base.updatedAt)]
    ++ (match m.storageTable with
        | some t => [("storageTable", tableBackRefJson t)]
        | none => []))

/-- `toStorageTable` from lib/serializers.ts, rendered to JSON. -/
def toStorageTableJson (t : TableRec) : JsValue :=
  .obj [("id", .str t.base.id), ("name", .str t.base.name),
        ("description", jsNullableStr t.base.description),
        ("schema", t.base.schema),
        ("storageModelId", .str t.base.storageModelId),
        ("createdAt", .str t.base.createdAt), ("updatedAt", .str t.base.updatedAt),
        ("forms", .arr (t.forms.map (fun f => toFormModelJson f true))),
        ("views", .arr (t.views.map toViewModelJson))]

/-- `toDomainModel` from lib/serializers.ts, rendered to JSON:
`fields` is the tolerant extraction, `schema` is
`model.schema ? { fields } : null`. -/
def toDomainModelJson (m : DomainRec) : JsValue :=
  let fields := toDomainFields m.schema
  let schemaOut : JsValue :=
    if m.schema.truthy then .obj [("fields", .arr (fields.map encodeDomainField))]
    else .null
  .obj [("id", .str m.id), ("name", .str m.name),
        ("description", jsNullableStr m.description),
        ("schema", schemaOut),
        ("fields", .arr (fields.map encodeDomainField)),
        ("storageTables", .arr (m.storageTables.map toStorageTableJson)),
        ("viewModels", .arr (m.viewModels.map toViewModelJson)),
        ("formModels", .arr (m.formModels.map (fun f => toFormModelJson f true))),
        ("operationModels",
          .arr (m.operationModels.map (fun o => toOperationModelJson o true))),
        ("createdAt", .str m.createdAt), ("updatedAt", .str m.updatedAt)]

/-! ## Create routes (app/api/{view,form,operation,domain}-models/route.ts) -/

/-- A layout field of a create-view request after zod validation. -/
structure ViewFieldReq where
  column : String
  label : String
  type : Option String
  sortable : Option Bool
deriving DecidableEq

/-- The layout of a create-view request. -/
structure ViewLayoutReq where
  fields : List ViewFieldReq

/-- A validated create-view request. -/
structure CreateViewRequest where
  name : String
  description : Option String
  storageModelId : String
  storageTableId : String
  layout : ViewLayoutReq

/-- JSON of a validated layout field (optional properties dropped). -/
def encodeViewField (f : ViewFieldReq) : JsValue :=
  .obj ([("column", .str f.column), ("label", .str f.label)]
    ++ (match f.type with
        | some t => [("type", .str t)]
        | none => [])
    ++ (match f.sortable with
        | some b => [("sortable", .bool b)]
        | none => []))

/-- JSON of a validated layout document. -/
def encodeViewLayout (l : ViewLayoutReq) : JsValue :=
  .obj [("fields", .arr (l.fields.map encodeViewField))]

/-- The zod `createViewSchema` acceptance condition. -/
def validViewRequest (req : CreateViewRequest) : Prop :=
  req.name ≠ "" ∧ req.storageModelId ≠ "" ∧ req.storageTableId ≠ "" ∧
    req.layout.fields ≠ [] ∧ ∀ f ∈ req.layout.fields, f.column ≠ "" ∧ f.label ≠ ""

/-- The `prisma.dataViewModel.create` payload of the view POST route. -/
def persistView (req : CreateViewRequest) (newId c u : String) : ViewBase :=
  { id := newId
    name := req.name
    description := req.description
    layout := encodeViewLayout req.layout
    storageModelId := req.storageModelId
    storageTableId := req.storageTableId
    createdAt := c
    updatedAt := u }

/-- The view POST route's 201 response body: the created row re-fetched with
its relations and serialized. -/
def createViewResponse (req : CreateViewRequest) (newId c u : String)
    (storageTable : Option TableBase) : JsValue :=
  toViewModelJson ⟨persistView req newId c u, storageTable⟩

/-- A schema field of a create-form request after zod validation
(`required` defaulted to false by zod). -/
structure FormFieldReq where
  column : String
  label : String
  required : Bool
  component : String
deriving DecidableEq

/-- The schema of a create-form request. -/
structure FormSchemaReq where
  fields : List FormFieldReq

/-- A validated create-form request. -/
structure CreateFormRequest where
  name : String
  description : Option String
  storageTableId : String
  schema : FormSchemaReq

/-- JSON of a validated form field. -/
def encodeFormField (f : FormFieldReq) : JsValue :=
  .obj [("column", .str f.column), ("label", .str f.label),
        ("required", .bool f.required), ("component", .str f.component)]

/-- JSON of a validated form schema document. -/
def encodeFormSchema (s : FormSchemaReq) : JsValue :=
  .obj [("fields", .arr (s.fields.map encodeFormField))]

/-- The zod `createFormSchema` acceptance condition. -/
def validFormRequest (req : CreateFormRequest) : Prop :=
  req.name ≠ "" ∧ req.storageTableId ≠ "" ∧ req.schema.fields ≠ [] ∧
    ∀ f ∈ req.schema.fields, f.column ≠ "" ∧ f.label ≠ "" ∧ f.component ≠ ""

/-- The `prisma.dataFormModel.create` payload of the form POST route. -/
def persistForm (req : CreateFormRequest) (newId c u : String) : FormBase :=
  { id := newId
    name := req.name
    description := req.description
    schema := encodeFormSchema req.schema
    storageTableId := req.storageTableId
    createdAt := c
    updatedAt := u }

/-- The form POST route's 201 response body: the created row re-fetched with
`storageTable` and `operations` (empty for a fresh form) and serialized. -/
def createFormResponse (req : CreateFormRequest) (newId c u : String)
    (storageTable : Option TableBase) : JsValue :=
  toFormModelJson ⟨persistForm req newId c u, some [], storageTable⟩ true

/-- A create-operation request after zod validation.  The two reference ids
are `string | null | undefined` (`some none` is an explicit null, `none` an
omitted field); `type` is defaulted to "READ" by zod when omitted. -/
structure CreateOperationRequest where
  name : String
  description : Option String
  type : String
  endpoint : Option String
  method : Option String
  storageModelId : Option (Option String)
  formModelId : Option (Option String)
  requestSchema : Option JsValue
  responseSchema : Option JsValue

/-- The route's `data.x || undefined` on a `string | null | undefined`
reference id: empty string and null collapse to undefined. -/
def jsIdOrUndefined (v : Option (Option String)) : Option String :=
  match v with
  | some (some s) => if s = "" then none else some s
  | _ => none

/-- The zod `createOperationSchema` acceptance condition (reference ids may
be any string, empty included, or null). -/
def validOperationRequest (req : CreateOperationRequest) : Prop :=
  req.name ≠ "" ∧
    req.type ∈ (["CREATE", "READ", "UPDATE", "DELETE", "CUSTOM"] : List String)

/-- The `prisma.dataOperationModel.create` payload of the operation POST
route. -/
def persistOperation (req : CreateOperationRequest) (newId c u : String) :
    OperationBase :=
  { id := newId
    name := req.name
    description := req.description
    type := req.type
    endpoint := req.endpoint
    method := req.method
    storageModelId := jsIdOrUndefined req.storageModelId
    formModelId := jsIdOrUndefined req.formModelId
    requestSchema := req.requestSchema
    responseSchema := req.responseSchema
    createdAt := c
    updatedAt := u }

/-- The operation POST route's 201 response body: the created row re-fetched
with its `formModel` relation and serialized. -/
def createOperationResponse (req : CreateOperationRequest) (newId c u : String)
    (formModel : Option FormBase) : JsValue :=
  toOperationModelJson ⟨persistOperation req newId c u, formModel⟩ true

/-- A validated create-domain request; the zod-parsed schema fields coincide
with normalized `DomainField`s, and the four id arrays are not yet
deduplicated. -/
structure CreateDomainRequest where
  name : String
  description : Option String
  schemaFields : List DomainField
  storageTableIds : List String
  viewModelIds : List String
  formModelIds : List String
  operationModelIds : List String

/-- The persisted domain schema document: `{fields: [...]}` as serialized
into the JSON column. -/
def encodeDomainSchemaReq (fs : List DomainField) : JsValue :=
  .obj [("fields", .arr (fs.map encodeDomainField))]

/-- The zod `createDomainSchema` acceptance condition. -/
def validDomainRequest (req : CreateDomainRequest) : Prop :=
  req.name ≠ "" ∧ req.schemaFields ≠ [] ∧
    (∀ f ∈ req.schemaFields, f.key ≠ "" ∧ f.name ≠ "") ∧
    (∀ i ∈ req.storageTableIds, i ≠ "") ∧ (∀ i ∈ req.viewModelIds, i ≠ "") ∧
    (∀ i ∈ req.formModelIds, i ≠ "") ∧ (∀ i ∈ req.operationModelIds, i ≠ "")

/-- The domain POST route's re-fetched detail: the created row plus one join
row per deduplicated id, each join resolved to its target row through the
store (modelled as total lookup functions; the create fails upstream when a
connect target is missing). -/
def persistDomainDetail (req : CreateDomainRequest) (newId c u : String)
    (tStore : String → TableRec) (vStore : String → ViewRec)
    (fStore : String → FormRec) (oStore : String → OperationRec) : DomainRec :=
  { id := newId
    name := req.name
    description := optOrUndefined req.description
    schema := encodeDomainSchemaReq req.schemaFields
    storageTables := (jsSetDedup req.storageTableIds).map tStore
    viewModels := (jsSetDedup req.viewModelIds).map vStore
    formModels := (jsSetDedup req.formModelIds).map fStore
    operationModels := (jsSetDedup req.operationModelIds).map oStore
    createdAt := c
    updatedAt := u }

/-- The domain POST route's 201 response body. -/
def createDomainResponse (req : CreateDomainRequest) (newId c u : String)
    (tStore : String → TableRec) (vStore : String → ViewRec)
    (fStore : String → FormRec) (oStore : String → OperationRec) : JsValue :=
  toDomainModelJson (persistDomainDetail req newId c u tStore vStore fStore oStore)

/-! ## Sample values used by witness instantiations -/

/-- A sample storage-table row. -/
def sampleTableBase : TableBase :=
  { id := "t1", name := "users", description := none, schema := .null,
    storageModelId := "sm1", createdAt := "2024-01-01T00:00:00.000Z",
    updatedAt := "2024-01-01T00:00:00.000Z" }

/-- A sample loaded view row with a storage-table back-reference. -/
def sampleViewRec : ViewRec :=
  { base :=
      { id := "v1", name := "view", description := none, layout := .null,
        storageModelId := "sm1", storageTableId := "t1",
        createdAt := "2024-01-01T00:00:00.000Z",
        updatedAt := "2024-01-01T00:00:00.000Z" }
    storageTable := some sampleTableBase }

/-- A sample loaded form row without relations. -/
def sampleFormRec : FormRec :=
  { base :=
      { id := "f1", name := "form", description := none, schema := .null,
        storageTableId := "t1", createdAt := "2024-01-01T00:00:00.000Z",
        updatedAt := "2024-01-01T00:00:00.000Z" }
    operations := none
    storageTable := none }

/-- A sample table store for the domain witness. -/
def sampleTableStore (i : String) : TableRec :=
  { base :=
      { id := i, name := "users", description := none, schema := .null,
        storageModelId := "sm1", createdAt := "2024-01-01T00:00:00.000Z",
        updatedAt := "2024-01-01T00:00:00.000Z" }
    forms := []
    views := [] }

/-- A sample view store for the domain witness. -/
def sampleViewStore (i : String) : ViewRec :=
  { base :=
      { id := i, name := "view", description := none, layout := .null,
        storageModelId := "sm1", storageTableId := "t1",
        createdAt := "2024-01-01T00:00:00.000Z",
        updatedAt := "2024-01-01T00:00:00.000Z" }
    storageTable := none }

/-- A sample form store for the domain witness. -/
def sampleFormStore (i : String) : FormRec :=
  { base :=
      { id := i, name := "form", description := none, schema := .null,
        storageTableId := "t1", createdAt := "2024-01-01T00:00:00.000Z",
        updatedAt := "2024-01-01T00:00:00.000Z" }
    operations := none
    storageTable := none }

/-- A sample operation store for the domain witness. -/
def sampleOperationStore (i : String) : OperationRec :=
  { base :=
      { id := i, name := "op", description := none, type := "READ",
        endpoint := none, method := none, storageModelId := none,
        formModelId := none, requestSchema := none, responseSchema := none,
        createdAt := "2024-01-01T00:00:00.000Z",
        updatedAt := "2024-01-01T00:00:00.000Z" }
    formModel := none }

/-- A sample validated create-view request. -/
def sampleViewRequest : CreateViewRequest :=
  { name := "v", description := none, storageModelId := "sm1",
    storageTableId := "t1",
    layout := ⟨[⟨"id", "ID", none, none⟩]⟩ }

/-- A sample validated create-form request. -/
def sampleFormRequest : CreateFormRequest :=
  { name := "f", description := none, storageTableId := "t1",
    schema := ⟨[⟨"id", "ID", false, "text"⟩]⟩ }

/-- A sample validated create-operation request. -/
def sampleOperationRequest : CreateOperationRequest :=
  { name := "op", description := none, type := "READ", endpoint := none,
    method := none, storageModelId := none, formModelId := none,
    requestSchema := none, responseSchema := none }

/-- A sample validated create-domain request with a duplicated table id. -/
def sampleDomainRequest : CreateDomainRequest :=
  { name := "d", description := none,
    schemaFields := [⟨"uid", "User ID", none, none, none⟩],
    storageTableIds := ["t1", "t1"], viewModelIds := [],
    formModelIds := [], operationModelIds := [] }

/-- A sample domain row whose stored schema document is the empty string —
a JSON document that is neither null nor absent but JavaScript-falsy. -/
def sampleDomainRecFalsySchema : DomainRec :=
  { id := "d1", name := "domain", description := none, schema := .str "",
    storageTables := [], viewModels := [], formModels := [],
    operationModels := [], createdAt := "2024-01-01T00:00:00.000Z",
    updatedAt := "2024-01-01T00:00:00.000Z" }

/-- A sample domain row with an object schema document. -/
def sampleDomainRecObjSchema : DomainRec :=
  { id := "d2", name := "domain", description := none,
    schema := .obj [("fields", .arr []), ("extra", .num 1)],
    storageTables := [], viewModels := [], formModels := [],
    operationModels := [], createdAt := "2024-01-01T00:00:00.000Z",
    updatedAt := "2024-01-01T00:00:00.000Z" }

/-- The source's string-or-empty resolution agrees with the spec-side
optional resolution, with the empty string standing for a failed
resolution. -/
lemma jsStringOrEmpty_eq_getD (r : JsValue) (p f : String) :
    jsStringOrEmpty r p f = (specResolvedString r p f).getD "" := by
  unfold jsStringOrEmpty specResolvedString
  rcases hp : r.get p with _ | vp
  · rcases hf : r.get f with _ | vf
    · rfl
    · cases vf <;> rfl
  · cases vp
    case str => rfl
    all_goals
      rcases hf : r.get f with _ | vf
      · rfl
      · cases vf <;> rfl

/-- A resolution that fails or yields the empty string is exactly what the
source collapses to the empty string. -/
lemma specResolvedString_cases (r : JsValue) (p f : String) :
    (specResolvedString r p f = none → jsStringOrEmpty r p f = "") ∧
    (∀ s, specResolvedString r p f = some s → jsStringOrEmpty r p f = s) := by
  constructor
  · intro h; rw [jsStringOrEmpty_eq_getD, h]; rfl
  · intro s h; rw [jsStringOrEmpty_eq_getD, h]; rfl

/-- Per-item agreement between the source extraction and the spec-worded
extraction. -/
lemma toDomainFieldItem_eq_specField (item : JsValue) :
    toDomainFieldItem item = specField item := by
  cases item with
  | null => rfl
  | bool b => rfl
  | str s => rfl
  | num n => rfl
  | arr xs =>
    unfold toDomainFieldItem specField
    rcases hk : specResolvedString (.arr xs) "key" "column" with _ | k
    · simp only [hk, (specResolvedString_cases (.arr xs) "key" "column").1 hk]
      simp
    · rcases hn : specResolvedString (.arr xs) "name" "label" with _ | n
      · simp only [hk, hn, (specResolvedString_cases (.arr xs) "name" "label").1 hn,
          (specResolvedString_cases (.arr xs) "key" "column").2 k hk]
        simp
      · simp only [hk, hn, (specResolvedString_cases (.arr xs) "name" "label").2 n hn,
          (specResolvedString_cases (.arr xs) "key" "column").2 k hk]
        unfold specResolvedString
        rfl
  | obj kvs =>
    unfold toDomainFieldItem specField
    rcases hk : specResolvedString (.obj kvs) "key" "column" with _ | k
    · simp only [hk, (specResolvedString_cases (.obj kvs) "key" "column").1 hk]
      simp
    · rcases hn : specResolvedString (.obj kvs) "name" "label" with _ | n
      · simp only [hk, hn, (specResolvedString_cases (.obj kvs) "name" "label").1 hn,
          (specResolvedString_cases (.obj kvs) "key" "column").2 k hk]
        simp
      · simp only [hk, hn, (specResolvedString_cases (.obj kvs) "name" "label").2 n hn,
          (specResolvedString_cases (.obj kvs) "key" "column").2 k hk]
        unfold specResolvedString
        rfl

/-- C6: the domain field extraction of the serializer behaves exactly as the
spec describes it: empty list for an absent or shapeless schema, `key`/`column`
and `name`/`label` fallbacks, dropping of entries without a resolved key or
name, and pass-through of `type`/`dataType`, `required` and `description`. -/
theorem toDomainFields_eq_specDomainFields (schema : JsValue) :
    toDomainFields schema = specDomainFields schema := by
  have hfun : toDomainFieldItem = specField := funext toDomainFieldItem_eq_specField
  cases schema with
  | null => rfl
  | bool b => cases b <;> rfl
  | str s =>
    unfold toDomainFields specDomainFields
    simp [JsValue.truthy, JsValue.isObjectType, JsValue.get]
  | num n =>
    unfold toDomainFields specDomainFields
    simp [JsValue.truthy, JsValue.isObjectType, JsValue.get]
  | arr xs => rfl
  | obj kvs =>
    unfold toDomainFields specDomainFields
    simp only [JsValue.truthy, JsValue.isObjectType, Bool.and_true, JsValue.get, hfun]
    rfl

/-- Every field produced by the extraction carries a nonempty key and a
nonempty name. -/
lemma toDomainFieldItem_some_ne (item : JsValue) (f : DomainField)
    (h : toDomainFieldItem item = some f) : f.key ≠ "" ∧ f.name ≠ "" := by
  cases item with
  | null => simp [toDomainFieldItem] at h
  | bool b => simp [toDomainFieldItem] at h
  | str s => simp [toDomainFieldItem] at h
  | num n => simp [toDomainFieldItem] at h
  | arr xs =>
    simp only [toDomainFieldItem] at h
    split at h
    · exact absurd h (by simp)
    · next hcond =>
      push_neg at hcond
      have hf := Option.some.inj h
      subst hf
      exact hcond
  | obj kvs =>
    simp only [toDomainFieldItem] at h
    split at h
    · exact absurd h (by simp)
    · next hcond =>
      push_neg at hcond
      have hf := Option.some.inj h
      subst hf
      exact hcond

/-- Extraction inverts the serializer's field rendering on any field with a
nonempty key and name. -/
lemma toDomainFieldItem_encode (f : DomainField)
    (hk : f.key ≠ "") (hn : f.name ≠ "") :
    toDomainFieldItem (encodeDomainField f) = some f := by
  rcases f with ⟨k, n, ty, rq, ds⟩
  simp only at hk hn
  rcases ty with _ | t <;> rcases rq with _ | b <;> rcases ds with _ | d
  all_goals try (rcases d with _ | d)
  all_goals
    simp [encodeDomainField, toDomainFieldItem, jsStringOrEmpty, JsValue.get,
      assocGet, hk, hn]

/-- Re-extracting an already-normalized field list is the identity. -/
lemma filterMap_encode_id (L : List DomainField)
    (h : ∀ f ∈ L, f.key ≠ "" ∧ f.name ≠ "") :
    L.filterMap (fun f => toDomainFieldItem (encodeDomainField f)) = L := by
  induction L with
  | nil => rfl
  | cons a t ih =>
    have ha := h a (List.mem_cons_self a t)
    rw [List.filterMap_cons, toDomainFieldItem_encode a ha.1 ha.2,
      ih (fun f hf => h f (List.mem_cons_of_mem a hf))]

/-- Every field in an extracted list carries a nonempty key and name. -/
lemma mem_toDomainFields_ne (schema : JsValue) (f : DomainField)
    (hf : f ∈ toDomainFields schema) : f.key ≠ "" ∧ f.name ≠ "" := by
  unfold toDomainFields at hf
  split at hf
  · split at hf
    · rcases List.mem_filterMap.mp hf with ⟨a, _, ha⟩
      exact toDomainFieldItem_some_ne a f ha
    · exact absurd hf (List.not_mem_nil f)
  · exact absurd hf (List.not_mem_nil f)

/-- C8: domain field extraction is idempotent — re-extracting from a schema
whose `fields` list was itself produced by the extraction (rendered the way
the serializer renders fields) reproduces the same field list. -/
theorem toDomainFields_idempotent (schema : JsValue) :
    toDomainFields
      (.obj [("fields", .arr ((toDomainFields schema).map encodeDomainField))]) =
      toDomainFields schema := by
  have hstep : ∀ L : List DomainField,
      toDomainFields (.obj [("fields", .arr (L.map encodeDomainField))]) =
      L.filterMap (fun f => toDomainFieldItem (encodeDomainField f)) := by
    intro L
    show List.filterMap toDomainFieldItem (L.map encodeDomainField) = _
    rw [List.filterMap_map]
    rfl
  rw [hstep, filterMap_encode_id _ (mem_toDomainFields_ne schema)]

/-- Lookup after a `Map.set`. -/
lemma assocGet_mapSet {α : Type} (m : List (String × α)) (k t : String) (v : α) :
    assocGet (mapSet m k v) t = if k = t then some v else assocGet m t := by
  induction m with
  | nil => simp [mapSet, assocGet]
  | cons kv rest ih =>
    obtain ⟨k0, v0⟩ := kv
    by_cases hk0 : k0 = k
    · subst hk0
      simp only [mapSet, if_pos rfl, assocGet]
      by_cases ht : k0 = t
      · subst ht; simp
      · simp [ht]
    · simp only [mapSet, if_neg hk0, assocGet]
      by_cases ht : k0 = t
      · subst ht
        have hkt : ¬ k = k0 := fun h => hk0 h.symm
        simp [hkt]
      · simp [ht, ih]

/-- The grouping fold, generalized over the accumulator map: after folding
the rows, the entry of a table is whatever the accumulator held followed by
the rows of that table in their original order. -/
lemma foldl_columns_lookup (rows : List CatalogColumnRow) :
    ∀ (m : List (String × List ColumnSchema)) (t : String),
      (assocGet (rows.foldl (fun m c =>
          mapSet m c.tableName
            (((assocGet m c.tableName).getD []) ++ [toColumnSchema c])) m) t).getD []
        = (assocGet m t).getD []
            ++ (rows.filter (fun c => c.tableName = t)).map toColumnSchema := by
  induction rows with
  | nil => intro m t; simp
  | cons c rest ih =>
    intro m t
    rw [List.foldl_cons, ih]
    by_cases hct : c.tableName = t
    · rw [assocGet_mapSet, if_pos hct, List.filter_cons, if_pos (by simpa using hct)]
      rw [hct]
      simp
    · rw [assocGet_mapSet, if_neg hct, List.filter_cons, if_neg (by simpa using hct)]

/-- C4: grouping the catalog column rows by owning table name and reading
back any table's group reproduces, in order, exactly the rows of that table
as the catalog returned them (ordinal-position stability); re-flattening the
per-table groups therefore reproduces the original per-table column order. -/
theorem grouping_preserves_per_table_order (rows : List CatalogColumnRow)
    (t : String) :
    groupedColumns rows t =
      (rows.filter (fun c => c.tableName = t)).map toColumnSchema := by
  unfold groupedColumns buildColumnsMap
  simpa using foldl_columns_lookup rows [] t

/-- Deduplication is the identity on duplicate-free lists. -/
lemma jsSetDedup_of_nodup (l : List String) (h : l.Nodup) : jsSetDedup l = l := by
  have aux : ∀ (l acc : List String), (∀ x ∈ l, x ∉ acc) → l.Nodup →
      l.foldl (fun acc x => if x ∈ acc then acc else acc ++ [x]) acc = acc ++ l := by
    intro l
    induction l with
    | nil => intro acc _ _; simp
    | cons x rest ih =>
      intro acc hdisj hnd
      have hx : x ∉ acc := hdisj x (List.mem_cons_self x rest)
      rw [List.foldl_cons]
      simp only [if_neg hx]
      rw [ih (acc ++ [x]) ?_ (List.nodup_cons.mp hnd).2]
      · simp
      · intro y hy
        simp only [List.mem_append, List.mem_singleton]
        rintro (h1 | rfl)
        · exact hdisj y (List.mem_cons_of_mem _ hy) h1
        · exact (List.nodup_cons.mp hnd).1 hy
  simpa using aux l [] (by simp) h

/-- C1: for every import request reaching persistence, the number of
persisted `StorageTable` rows equals the number of distinct table names the
catalog table query returned (the catalog lists each table of a schema once,
hence the `Nodup` hypothesis), and every catalog table — also one without a
single column row — is persisted, a column-less one with an empty `columns`
array. -/
theorem import_table_count_and_zero_columns (name : String)
    (description : Option String) (conn : ValidConnection)
    (tableRows : List CatalogTableRow) (columnRows : List CatalogColumnRow)
    (now newId : String)
    (hnodup : (tableRows.map CatalogTableRow.tableName).Nodup) :
    (((importHandler name description conn tableRows columnRows now newId).2.map
        (fun m => m.tables.length)).sum =
      (jsSetDedup (tableRows.map CatalogTableRow.tableName)).length) ∧
    (∀ t ∈ tableRows,
      ∃ m ∈ (importHandler name description conn tableRows columnRows now newId).2,
        ∃ tbl ∈ m.tables, tbl.name = t.tableName ∧
          ((∀ c ∈ columnRows, c.tableName ≠ t.tableName) → tbl.schemaColumns = [])) := by
  rw [jsSetDedup_of_nodup _ hnodup]
  by_cases htr : tableRows = []
  · subst htr
    exact ⟨by simp [importHandler], fun t ht => absurd ht (List.not_mem_nil t)⟩
  · have hlen : ¬ tableRows.length = 0 := by
      simpa [List.length_eq_zero] using htr
    constructor
    · simp [importHandler, buildTables, htr]
    · intro t ht
      have hh : (importHandler name description conn tableRows columnRows now newId).2 =
          [{ id := newId
             name := name
             description := optOrUndefined description
             database := conn.database
             connection := buildConnectionString conn
             schemaImportedAt := now
             schemaTables := buildTables tableRows columnRows
             tables := (buildTables tableRows columnRows).map persistChildTable }] := by
        simp only [importHandler, if_neg hlen]
      rw [hh]
      refine ⟨_, List.mem_singleton_self _, ?_⟩
      refine ⟨persistChildTable
        { name := t.tableName
          description := jsStringOrNull t.tableComment
          columns := groupedColumns columnRows t.tableName }, ?_, rfl, ?_⟩
      · exact List.mem_map_of_mem persistChildTable (List.mem_map_of_mem _ ht)
      · intro hnone
        have hfilter : columnRows.filter (fun c => c.tableName = t.tableName) = [] := by
          rw [List.filter_eq_nil_iff]
          intro c hc
          simpa using hnone c hc
        simp [persistChildTable, grouping_preserves_per_table_order, hfilter]

/-- Witness for C1 at a one-table, zero-column catalog. -/
theorem import_table_count_witness :
    ((importHandler "m" none ⟨"h", 3306, "u", "p", "d"⟩
        [⟨"t1", ""⟩] [] "2024-01-01T00:00:00.000Z" "id1").2.map
      (fun m => m.tables.length)).sum =
      (jsSetDedup ([(⟨"t1", ""⟩ : CatalogTableRow)].map CatalogTableRow.tableName)).length :=
  (import_table_count_and_zero_columns "m" none ⟨"h", 3306, "u", "p", "d"⟩
    [⟨"t1", ""⟩] [] "2024-01-01T00:00:00.000Z" "id1" (by decide)).1

/-- C2: an import request whose catalog table query returns zero rows is
rejected with the fixed "no tables" message at status 400 and persists
nothing — no `StorageModel` and hence no `StorageTable` row is written.
The handler is evaluated once per request; no retry exists in the code. -/
theorem import_empty_catalog_rejected (name : String)
    (description : Option String) (conn : ValidConnection)
    (columnRows : List CatalogColumnRow) (now newId : String) :
    importHandler name description conn [] columnRows now newId =
        (.badRequest "目标数据库未检测到数据表", []) ∧
      (importHandler name description conn [] columnRows now newId).1.status = 400 :=
  ⟨rfl, rfl⟩

/-- C3 counterexample: with password "mysql" (host "h", port 3306, user "u",
database "d", one catalog table) the persisted connection descriptor is
`mysql://u@h:3306/d`, which contains the submitted password as a substring —
the claim's universally quantified no-substring property is false. -/
theorem connection_contains_password_counterexample :
    ((importHandler "m" none ⟨"h", 3306, "u", "mysql", "d"⟩
        [⟨"t1", ""⟩] [] "2024-01-01T00:00:00.000Z" "id1").2.map
      StorageModelRecP.connection = ["mysql://u@h:3306/d"]) ∧
      ("mysql".data <:+: "mysql://u@h:3306/d".data) := by
  constructor
  · rfl
  · decide

/-- C3 amended: the persisted connection descriptor is built exclusively
from host, port, user and database — it is invariant under any change of the
submitted password, so the password never flows into it (it can occur in the
descriptor only coincidentally, when it equals material derived from the
non-secret fields, as in the counterexample). -/
theorem import_result_password_independent (name : String)
    (description : Option String) (conn : ValidConnection) (p : String)
    (tableRows : List CatalogTableRow) (columnRows : List CatalogColumnRow)
    (now newId : String) :
    importHandler name description { conn with password := p }
        tableRows columnRows now newId =
      importHandler name description conn tableRows columnRows now newId := rfl

/-- A property rendered from `x ?? undefined` is transparent to lookups of a
different key. -/
lemma assocGet_optionalProp_ne (k t : String) (v : Option String)
    (rest : List (String × JsValue)) (h : ¬ k = t) :
    assocGet (optionalProp k v ++ rest) t = assocGet rest t := by
  cases v <;> simp [optionalProp, assocGet, h]

/-- C7: the serializer is total by construction (every function below is a
total Lean function over loaded rows), an absent optional relation is
rendered as an omitted property, and a `storageTable` back-reference inside a
serialized ViewModel or FormModel always carries empty `forms` and `views`
collections instead of recursing. -/
theorem serializer_totality_and_shallow_back_reference :
    (∀ m : ViewRec,
      (m.storageTable = none → (toViewModelJson m).get "storageTable" = none) ∧
      (∀ t, m.storageTable = some t →
        (toViewModelJson m).get "storageTable" = some (tableBackRefJson t) ∧
        (tableBackRefJson t).get "forms" = some (.arr []) ∧
        (tableBackRefJson t).get "views" = some (.arr []))) ∧
    (∀ (m : FormRec) (b : Bool),
      (m.storageTable = none → (toFormModelJson m b).get "storageTable" = none) ∧
      (m.operations = none → (toFormModelJson m b).get "operations" = none) ∧
      (∀ t, m.storageTable = some t →
        (toFormModelJson m b).get "storageTable" = some (tableBackRefJson t) ∧
        (tableBackRefJson t).get "forms" = some (.arr []) ∧
        (tableBackRefJson t).get "views" = some (.arr []))) := by
  constructor
  · intro m
    constructor
    · intro h
      simp [toViewModelJson, h, JsValue.get, assocGet]
    · intro t ht
      refine ⟨?_, rfl, rfl⟩
      simp [toViewModelJson, ht, JsValue.get, assocGet]
  · intro m b
    refine ⟨?_, ?_, ?_⟩
    · intro h
      rcases hop : m.operations with _ | ops <;> cases b <;>
        simp [toFormModelJson, h, hop, JsValue.get, assocGet]
    · intro h
      rcases hst : m.storageTable with _ | t <;> cases b <;>
        simp [toFormModelJson, h, hst, JsValue.get, assocGet]
    · intro t ht
      refine ⟨?_, rfl, rfl⟩
      rcases hop : m.operations with _ | ops <;> cases b <;>
        simp [toFormModelJson, ht, hop, JsValue.get, assocGet]

/-- Witness for C7: a view row with a loaded back-reference serializes it
shallowly, a form row without relations omits them. -/
theorem serializer_shallow_witness :
    sampleViewRec.storageTable = some sampleTableBase ∧
    (toViewModelJson sampleViewRec).get "storageTable" =
      some (tableBackRefJson sampleTableBase) ∧
    sampleFormRec.storageTable = none ∧
    (toFormModelJson sampleFormRec true).get "storageTable" = none :=
  ⟨rfl,
    ((serializer_totality_and_shallow_back_reference.1 sampleViewRec).2
      sampleTableBase rfl).1,
    rfl,
    (serializer_totality_and_shallow_back_reference.2 sampleFormRec true).1 rfl⟩

/-- C9 counterexample: a domain row whose stored schema document is the
empty string — a document that is neither null nor absent — serializes its
`schema` output to null, not to `{fields: []}` as the claim requires for any
non-null stored document. -/
theorem domain_schema_falsy_counterexample :
    sampleDomainRecFalsySchema.schema ≠ .null ∧
    toDomainFields sampleDomainRecFalsySchema.schema = [] ∧
    (toDomainModelJson sampleDomainRecFalsySchema).get "schema" = some .null := by
  refine ⟨?_, rfl, rfl⟩
  intro h
  simp [sampleDomainRecFalsySchema] at h

/-- C9 amended: the serialized `schema` of a DomainModel is null exactly
when the stored document is JavaScript-falsy (null, absent, empty string,
zero or false), and for any truthy stored document it is exactly
`{fields: L}` with `L` the normalized extraction — every other stored
property is dropped. -/
theorem domain_schema_null_or_fields_only (m : DomainRec) :
    (m.schema.truthy = false → (toDomainModelJson m).get "schema" = some .null) ∧
    (m.schema.truthy = true → (toDomainModelJson m).get "schema" =
      some (.obj [("fields",
        .arr ((toDomainFields m.schema).map encodeDomainField))])) := by
  constructor <;> intro h <;> simp [toDomainModelJson, JsValue.get, assocGet, h]

/-- Witness for the amended C9 at a truthy stored document carrying an extra
property, which the serialization drops. -/
theorem domain_schema_null_or_fields_only_witness :
    sampleDomainRecObjSchema.schema.truthy = true ∧
    (toDomainModelJson sampleDomainRecObjSchema).get "schema" =
      some (.obj [("fields",
        .arr ((toDomainFields sampleDomainRecObjSchema.schema).map
          encodeDomainField))]) :=
  ⟨rfl, (domain_schema_null_or_fields_only sampleDomainRecObjSchema).2 rfl⟩

/-- C10: a create-operation request that passed validation with an empty
string or an explicit null in `storageModelId`/`formModelId` is persisted
exactly as if the fields had been omitted: the stored row carries no
reference, so no foreign-key connect is attempted for the empty value. -/
theorem empty_or_null_reference_not_connected
    (req : CreateOperationRequest) (newId c u : String)
    (_hreq : validOperationRequest req)
    (v w : Option (Option String))
    (hv : v = some (some "") ∨ v = some none)
    (hw : w = some (some "") ∨ w = some none) :
    persistOperation { req with storageModelId := v, formModelId := w } newId c u =
        persistOperation { req with storageModelId := none, formModelId := none }
          newId c u ∧
      (persistOperation { req with storageModelId := v, formModelId := w }
        newId c u).storageModelId = none ∧
      (persistOperation { req with storageModelId := v, formModelId := w }
        newId c u).formModelId = none := by
  rcases hv with rfl | rfl <;> rcases hw with rfl | rfl <;> exact ⟨rfl, rfl, rfl⟩

/-- C5: for every valid create request of the four aggregate routes, the
201 response document carries the server id, the submitted name and the
declared scalar relation references, and re-serializing immediately after
the create reproduces the submitted layout/schema/field content verbatim
(modulo the generated id and timestamps).  For operations the reference
conclusions cover fields declared with a real (nonempty) id or omitted; the
empty-string/null collapse is C10.  For domains the four join arrays carry
exactly the deduplicated requested ids, resolved through the store. -/
theorem create_round_trip :
    (∀ (req : CreateViewRequest) (newId c u : String) (st : Option TableBase),
      validViewRequest req →
        (createViewResponse req newId c u st).get "id" = some (.str newId) ∧
        (createViewResponse req newId c u st).get "name" = some (.str req.name) ∧
        (createViewResponse req newId c u st).get "storageModelId" =
          some (.str req.storageModelId) ∧
        (createViewResponse req newId c u st).get "storageTableId" =
          some (.str req.storageTableId) ∧
        (createViewResponse req newId c u st).get "layout" =
          some (encodeViewLayout req.layout)) ∧
    (∀ (req : CreateFormRequest) (newId c u : String) (st : Option TableBase),
      validFormRequest req →
        (createFormResponse req newId c u st).get "id" = some (.str newId) ∧
        (createFormResponse req newId c u st).get "name" = some (.str req.name) ∧
        (createFormResponse req newId c u st).get "storageTableId" =
          some (.str req.storageTableId) ∧
        (createFormResponse req newId c u st).get "schema" =
          some (encodeFormSchema req.schema)) ∧
    (∀ (req : CreateOperationRequest) (newId c u : String) (fm : Option FormBase),
      validOperationRequest req →
        (createOperationResponse req newId c u fm).get "id" = some (.str newId) ∧
        (createOperationResponse req newId c u fm).get "name" =
          some (.str req.name) ∧
        (createOperationResponse req newId c u fm).get "type" =
          some (.str req.type) ∧
        (∀ s, s ≠ "" → req.storageModelId = some (some s) →
          (createOperationResponse req newId c u fm).get "storageModelId" =
            some (.str s)) ∧
        (req.storageModelId = none →
          (createOperationResponse req newId c u fm).get "storageModelId" = none) ∧
        (∀ s, s ≠ "" → req.formModelId = some (some s) →
          (createOperationResponse req newId c u fm).get "formModelId" =
            some (.str s)) ∧
        (req.formModelId = none →
          (createOperationResponse req newId c u fm).get "formModelId" = none) ∧
        (∀ v, req.requestSchema = some v →
          (createOperationResponse req newId c u fm).get "requestSchema" = some v) ∧
        (∀ v, req.responseSchema = some v →
          (createOperationResponse req newId c u fm).get "responseSchema" = some v)) ∧
    (∀ (req : CreateDomainRequest) (newId c u : String)
        (tStore : String → TableRec) (vStore : String → ViewRec)
        (fStore : String → FormRec) (oStore : String → OperationRec),
      validDomainRequest req →
      (∀ i, (tStore i).base.id = i) → (∀ i, (vStore i).base.id = i) →
      (∀ i, (fStore i).base.id = i) → (∀ i, (oStore i).base.id = i) →
        (createDomainResponse req newId c u tStore vStore fStore oStore).get "id" =
          some (.str newId) ∧
        (createDomainResponse req newId c u tStore vStore fStore oStore).get "name" =
          some (.str req.name) ∧
        (createDomainResponse req newId c u tStore vStore fStore oStore).get
            "schema" = some (encodeDomainSchemaReq req.schemaFields) ∧
        (createDomainResponse req newId c u tStore vStore fStore oStore).get
            "fields" = some (.arr (req.schemaFields.map encodeDomainField)) ∧
        ((createDomainResponse req newId c u tStore vStore fStore oStore).get
            "storageTables" = some (.arr
              (((jsSetDedup req.storageTableIds).map tStore).map toStorageTableJson)) ∧
          (((jsSetDedup req.storageTableIds).map tStore).map
              toStorageTableJson).map (fun j => j.get "id") =
            (jsSetDedup req.storageTableIds).map (fun i => some (.str i))) ∧
        ((createDomainResponse req newId c u tStore vStore fStore oStore).get
            "viewModels" = some (.arr
              (((jsSetDedup req.viewModelIds).map vStore).map toViewModelJson)) ∧
          (((jsSetDedup req.viewModelIds).map vStore).map
              toViewModelJson).map (fun j => j.get "id") =
            (jsSetDedup req.viewModelIds).map (fun i => some (.str i))) ∧
        ((createDomainResponse req newId c u tStore vStore fStore oStore).get
            "formModels" = some (.arr
              (((jsSetDedup req.formModelIds).map fStore).map
                (fun f => toFormModelJson f true))) ∧
          (((jsSetDedup req.formModelIds).map fStore).map
              (fun f => toFormModelJson f true)).map (fun j => j.get "id") =
            (jsSetDedup req.formModelIds).map (fun i => some (.str i))) ∧
        ((createDomainResponse req newId c u tStore vStore fStore oStore).get
            "operationModels" = some (.arr
              (((jsSetDedup req.operationModelIds).map oStore).map
                (fun o => toOperationModelJson o true))) ∧
          (((jsSetDedup req.operationModelIds).map oStore).map
              (fun o => toOperationModelJson o true)).map (fun j => j.get "id") =
            (jsSetDedup req.operationModelIds).map (fun i => some (.str i)))) := by
  refine ⟨?_, ?_, ?_, ?_⟩
  · intro req newId c u st _hval
    exact ⟨rfl, rfl, rfl, rfl, rfl⟩
  · intro req newId c u st _hval
    exact ⟨rfl, rfl, rfl, rfl⟩
  · intro req newId c u fm _hval
    refine ⟨rfl, rfl, rfl, ?_, ?_, ?_, ?_, ?_, ?_⟩
    · intro s hs hsm
      simp [createOperationResponse, toOperationModelJson, persistOperation,
        jsIdOrUndefined, optionalProp, hsm, hs, JsValue.get, assocGet]
    · intro hsm
      have h1 : jsIdOrUndefined req.storageModelId = none := by
        simp [hsm, jsIdOrUndefined]
      rcases fm with _ | f <;>
        rcases h2 : jsIdOrUndefined req.formModelId with _ | s2 <;>
          simp [createOperationResponse, toOperationModelJson, persistOperation,
            h1, h2, optionalProp, JsValue.get, assocGet]
    · intro s hs hfm
      have h2 : jsIdOrUndefined req.formModelId = some s := by
        rw [hfm]
        simp [jsIdOrUndefined, hs]
      rcases fm with _ | f <;>
        rcases h1 : jsIdOrUndefined req.storageModelId with _ | s1 <;>
          simp [createOperationResponse, toOperationModelJson, persistOperation,
            h1, h2, optionalProp, JsValue.get, assocGet]
    · intro hfm
      have h2 : jsIdOrUndefined req.formModelId = none := by
        simp [hfm, jsIdOrUndefined]
      rcases fm with _ | f <;>
        rcases h1 : jsIdOrUndefined req.storageModelId with _ | s1 <;>
          simp [createOperationResponse, toOperationModelJson, persistOperation,
            h1, h2, optionalProp, JsValue.get, assocGet]
    · intro v hv
      simp [createOperationResponse, toOperationModelJson, persistOperation,
        jsNullableDoc, hv, JsValue.get, assocGet, assocGet_optionalProp_ne]
    · intro v hv
      simp [createOperationResponse, toOperationModelJson, persistOperation,
        jsNullableDoc, hv, JsValue.get, assocGet, assocGet_optionalProp_ne]
  · intro req newId c u tStore vStore fStore oStore hval htS hvS hfS hoS
    have hfields : toDomainFields
        (.obj [("fields", .arr (req.schemaFields.map encodeDomainField))]) =
        req.schemaFields := by
      show List.filterMap toDomainFieldItem
        (req.schemaFields.map encodeDomainField) = _
      rw [List.filterMap_map]
      exact filterMap_encode_id _ hval.2.2.1
    refine ⟨?_, ?_, ?_, ?_, ⟨?_, ?_⟩, ⟨?_, ?_⟩, ⟨?_, ?_⟩, ⟨?_, ?_⟩⟩
    · rfl
    · rfl
    · simp [createDomainResponse, toDomainModelJson, persistDomainDetail,
        hfields, encodeDomainSchemaReq, JsValue.get, assocGet, JsValue.truthy]
    · simp [createDomainResponse, toDomainModelJson, persistDomainDetail,
        hfields, encodeDomainSchemaReq, JsValue.get, assocGet, JsValue.truthy]
    · simp [createDomainResponse, toDomainModelJson, persistDomainDetail,
        JsValue.get, assocGet]
    · simp only [List.map_map]
      apply List.map_congr_left
      intro i _
      simp [Function.comp, toStorageTableJson, JsValue.get, assocGet, htS i]
    · simp [createDomainResponse, toDomainModelJson, persistDomainDetail,
        JsValue.get, assocGet]
    · simp only [List.map_map]
      apply List.map_congr_left
      intro i _
      simp [Function.comp, toViewModelJson, JsValue.get, assocGet, hvS i]
    · simp [createDomainResponse, toDomainModelJson, persistDomainDetail,
        JsValue.get, assocGet]
    · simp only [List.map_map]
      apply List.map_congr_left
      intro i _
      simp [Function.comp, toFormModelJson, JsValue.get, assocGet, hfS i]
    · simp [createDomainResponse, toDomainModelJson, persistDomainDetail,
        JsValue.get, assocGet]
    · simp only [List.map_map]
      apply List.map_congr_left
      intro i _
      simp [Function.comp, toOperationModelJson, JsValue.get, assocGet, hoS i]

/-- Witness for C5 at concrete valid requests of all four kinds. -/
theorem create_round_trip_witness :
    validViewRequest sampleViewRequest ∧
    (createViewResponse sampleViewRequest "v1" "c" "u" none).get "name" =
      some (.str "v") ∧
    (createFormResponse sampleFormRequest "f1" "c" "u" none).get "schema" =
      some (encodeFormSchema sampleFormRequest.schema) ∧
    (createOperationResponse sampleOperationRequest "o1" "c" "u" none).get "type" =
      some (.str "READ") ∧
    (createDomainResponse sampleDomainRequest "d1" "c" "u" sampleTableStore
        sampleViewStore sampleFormStore sampleOperationStore).get "schema" =
      some (encodeDomainSchemaReq sampleDomainRequest.schemaFields) :=
  ⟨by unfold validViewRequest sampleViewRequest; decide,
    (create_round_trip.1 sampleViewRequest "v1" "c" "u" none
      (by unfold validViewRequest sampleViewRequest; decide)).2.1,
    (create_round_trip.2.1 sampleFormRequest "f1" "c" "u" none
      (by unfold validFormRequest sampleFormRequest; decide)).2.2.2,
    (create_round_trip.2.2.1 sampleOperationRequest "o1" "c" "u" none
      (by unfold validOperationRequest sampleOperationRequest; decide)).2.2.1,
    (create_round_trip.2.2.2 sampleDomainRequest "d1" "c" "u" sampleTableStore
      sampleViewStore sampleFormStore sampleOperationStore
      (by unfold validDomainRequest sampleDomainRequest; decide)
      (fun i => rfl) (fun i => rfl) (fun i => rfl) (fun i => rfl)).2.2.1⟩

/-- Witness for C10 at a concrete validated request. -/
theorem empty_or_null_reference_not_connected_witness :
    validOperationRequest sampleOperationRequest ∧
    persistOperation
        { sampleOperationRequest with
            storageModelId := some (some ""), formModelId := some none }
        "o1" "c" "u" =
      persistOperation
        { sampleOperationRequest with storageModelId := none, formModelId := none }
        "o1" "c" "u" :=
  ⟨by constructor <;> simp [sampleOperationRequest],
    (empty_or_null_reference_not_connected sampleOperationRequest "o1" "c" "u"
      (by constructor <;> simp [sampleOperationRequest])
      (some (some "")) (some none) (Or.inl rfl) (Or.inr rfl)).1⟩

end DataModelIde
